import Mathlib

/-!
Shallow embedding of the strong_scope_guard crate (src/src/lib.rs,
src/src/private.rs, src/examples/example.rs).

Side effects of handlers are modelled by explicit state passing over a
world type sigma: a Rust closure of type FnOnce() becomes a Lean function
sigma -> sigma.  Mutation of a guard through a mutable reference becomes a
function returning the updated guard.  The Rust drop glue that runs at the
end of the scope function, and during unwinding of the body, is spelled
out explicitly in the definitions that model control flow.
-/


namespace StrongScopeGuard

/-- Rust trait ScopeEndHandler (src/src/lib.rs lines 10-17): a type that can
act as a scope-end handler.  The rust method call(self) performs side
effects; here it transforms the world sigma. -/
class ScopeEndHandler (σ : Type) (H : Type) where
  none : H
  call : H → σ → σ

/-- Impl of ScopeEndHandler for Option of FnOnce() (src/src/lib.rs lines
19-29): none() is None, call(self) runs the closure if present. -/
instance instOptionHandler (σ : Type) : ScopeEndHandler σ (Option (σ → σ)) where
  none := Option.none
  call h s :=
    match h with
    | Option.some f => f s
    | Option.none => s

/-- Impl of ScopeEndHandler for the empty tuple (impl_scopeendhandler_tuple
with zero elements, src/src/lib.rs line 49). -/
instance instUnitHandler (σ : Type) : ScopeEndHandler σ Unit where
  none := ()
  call _ s := s

/-- Impl of ScopeEndHandler for tuples (impl_scopeendhandler_tuple,
src/src/lib.rs lines 31-55): none() is the tuple of element none() values
and call(self) calls every element in declaration order.  A flat Rust
tuple of arity n is encoded as the right-nested product, so this pair
instance together with the element instances covers arities 2 through 6. -/
instance instProdHandler (σ : Type) (H1 : Type) (H2 : Type)
    [i1 : ScopeEndHandler σ H1] [i2 : ScopeEndHandler σ H2] :
    ScopeEndHandler σ (H1 × H2) where
  none := (i1.none, i2.none)
  call h s := i2.call h.2 (i1.call h.1 s)

/-- Rust struct LocalScopeGuard (src/src/lib.rs lines 72-76): a guard that
protects data local to a scope.  The PhantomData scope marker is a
compile-time-only device and has no runtime content, so it is omitted. -/
structure LocalScopeGuard (H : Type) where
  handler : H

/-- Rust struct StaticScopeGuard (src/src/lib.rs lines 106-119): a guard
for whole-program data.  Its only field is PhantomData, so it carries no
runtime state at all. -/
structure StaticScopeGuard (H : Type) where

/-- Private trait ScopeGuardPriv (src/src/private.rs lines 4-12): new()
constructs a guard and call(&mut self) calls the handler and replaces it
with none. -/
class ScopeGuardPriv (σ : Type) (G : Type) where
  new : G
  call : G → σ → G × σ

/-- Impl of ScopeGuardPriv for LocalScopeGuard (src/src/lib.rs lines
86-97): new() stores H::none(); call(&mut self) does
mem::replace(&mut self.handler, H::none()).call(), i.e. the slot is
emptied first and the previous handler is then invoked. -/
instance instLocalPriv (σ : Type) (H : Type) [i : ScopeEndHandler σ H] :
    ScopeGuardPriv σ (LocalScopeGuard H) where
  new := { handler := i.none }
  call g s := ({ handler := i.none }, i.call g.handler s)

/-- Impl of ScopeGuardPriv for StaticScopeGuard (src/src/lib.rs lines
129-135): new() has no state and call(&mut self) has an empty body. -/
instance instStaticPriv (σ : Type) (H : Type) [ScopeEndHandler σ H] :
    ScopeGuardPriv σ (StaticScopeGuard H) where
  new := {}
  call g s := (g, s)

/-- Public trait ScopeGuard (src/src/lib.rs lines 58-69).  The Rust method
handler_mut(&mut self) returns Option of a mutable reference to the
handler slot; a mutable reference is modelled as a lens: the current
value together with a function writing a new value back into the guard. -/
class ScopeGuardCls (G : Type) (H : outParam Type) where
  handler_mut : G → Option (H × (H → G))

/-- Default method ScopeGuard::set_handler (src/src/lib.rs lines 63-68):
if handler_mut returns a slot, write the new handler through it;
otherwise do nothing.  The previous handler is overwritten, not called. -/
def set_handler {G : Type} {H : Type} [i : ScopeGuardCls G H] (g : G) (h : H) : G :=
  match i.handler_mut g with
  | Option.some p => p.2 h
  | Option.none => g

/-- Impl of ScopeGuard for LocalScopeGuard (src/src/lib.rs lines 78-84):
handler_mut returns Some(&mut self.handler). -/
instance instLocalGuardCls (H : Type) : ScopeGuardCls (LocalScopeGuard H) H where
  handler_mut g := Option.some (g.handler, fun h => { handler := h })

/-- Impl of ScopeGuard for StaticScopeGuard (src/src/lib.rs lines
121-127): handler_mut returns None, so there is no slot. -/
instance instStaticGuardCls (H : Type) : ScopeGuardCls (StaticScopeGuard H) H where
  handler_mut _ := Option.none

/-- Private trait LocalScopeGuards (src/src/private.rs lines 20-34): a
collection of LocalScopeGuards with new() and call_all(&mut self). -/
class LocalScopeGuards (σ : Type) (G : Type) where
  new : G
  call_all : G → σ → G × σ

/-- Impl of LocalScopeGuards for the empty tuple (impl_tuple with zero
elements, src/src/private.rs line 55). -/
instance instUnitGuards (σ : Type) : LocalScopeGuards σ Unit where
  new := ()
  call_all g s := (g, s)

/-- Impl of LocalScopeGuards for tuples (impl_tuple, src/src/private.rs
lines 36-61): new() builds every element with its own new() and
call_all calls call_all on every element in declaration order.  Flat
tuples of arity up to 6 are encoded as right-nested pairs. -/
instance instProdGuards (σ : Type) (A B : Type)
    [iA : LocalScopeGuards σ A] [iB : LocalScopeGuards σ B] :
    LocalScopeGuards σ (A × B) where
  new := (iA.new, iB.new)
  call_all g s :=
    let p := iA.call_all g.1 s
    let q := iB.call_all g.2 p.2
    ((p.1, q.1), q.2)

/-- Impl of LocalScopeGuards for LocalScopeGuard itself
(src/src/private.rs lines 90-104): new() stores H::none() and
call_all(&mut self) is self.call(). -/
instance instLocalGuards (σ : Type) (H : Type) [i : ScopeEndHandler σ H] :
    LocalScopeGuards σ (LocalScopeGuard H) where
  new := { handler := i.none }
  call_all g s := ScopeGuardPriv.call g s

/-- The scope function (src/src/lib.rs lines 195-204) on the normal path:
construct fresh guards with G::new(), run the body on them, call
call_all() on the collection the body returned, and return the body
result.  When the Rust scope function returns, its local variable guards
is dropped; the Drop impl of LocalScopeGuard (src/src/lib.rs lines
99-104) runs ScopeGuardPriv::call on every guard, which for these
collections is a second call_all pass, modelled here explicitly. -/
def scope {σ : Type} {G : Type} {O : Type} [i : LocalScopeGuards σ G]
    (body : G → G × O) (s : σ) : O × σ :=
  let p := body i.new
  let q := i.call_all p.1 s
  let r := i.call_all q.1 q.2
  (p.2, r.2)

/-- A step of the scope body acting on one guard: the body owns the guard
value and the world and may transform both.  This covers everything the
body can do through the public API (set_handler, reads and writes through
handler_mut, unrelated side effects) and more; the theorems below hold
for arbitrary steps. -/
def BodyStep (σ H : Type) : Type :=
  LocalScopeGuard H × σ → LocalScopeGuard H × σ

/-- Runs the steps of the body in order. -/
def runBody {σ H : Type} (ops : List (BodyStep σ H))
    (p : LocalScopeGuard H × σ) : LocalScopeGuard H × σ :=
  ops.foldl (fun q f => f q) p

/-- How one execution of a scope body ends: normal completion, or an
abnormal unwind raised after the first k steps. -/
inductive ScopeOutcome : Type where
  | normal : ScopeOutcome
  | unwindAt : Nat → ScopeOutcome

/-- The body steps that actually execute before control leaves the body
region: all of them on normal completion, the first k when the body
unwinds after step k. -/
def executedOps {σ H : Type} (ops : List (BodyStep σ H)) (oc : ScopeOutcome) :
    List (BodyStep σ H) :=
  match oc with
  | ScopeOutcome.normal => ops
  | ScopeOutcome.unwindAt k => ops.take k

/-- Guard slot and world at the moment control leaves the body region,
starting from the fresh guard that scope constructs with G::new(). -/
def bodyExit {σ H : Type} [i : ScopeEndHandler σ H] (ops : List (BodyStep σ H))
    (oc : ScopeOutcome) (s : σ) : LocalScopeGuard H × σ :=
  runBody (executedOps ops oc) ({ handler := i.none }, s)

/-- Single-guard execution of the scope function (src/src/lib.rs lines
195-204) including the abnormal path.  Normal completion: the explicit
guards.call_all() sweep runs ScopeGuardPriv::call, and when the scope
function then returns, the guard local is dropped and the Drop impl
(src/src/lib.rs lines 99-104) runs ScopeGuardPriv::call a second time.
Unwind after step k: the guard owned by the body is dropped during
unwinding, running ScopeGuardPriv::call once before the unwind passes
the scope boundary. -/
def scopeExec {σ H : Type} [ScopeEndHandler σ H] (ops : List (BodyStep σ H))
    (oc : ScopeOutcome) (s : σ) : σ :=
  let p := bodyExit ops oc s
  match oc with
  | ScopeOutcome.normal =>
    let q := ScopeGuardPriv.call p.1 p.2
    (ScopeGuardPriv.call q.1 q.2).2
  | ScopeOutcome.unwindAt _ => (ScopeGuardPriv.call p.1 p.2).2

/-- Result of running code that may unwind: Except.ok is a normal return
with the final world, Except.error is a panic carrying the world at the
moment the panic was raised. -/
def UnwindOr (σ : Type) : Type :=
  Except σ σ

/-- Merges an UnwindOr back to the world it carries. -/
def UnwindOr.world {σ : Type} : UnwindOr σ → σ
  | Except.ok s => s
  | Except.error s => s

/-- The Option FnOnce handler capability when the closure itself may
panic (src/src/lib.rs lines 19-29, with the closure returning an
UnwindOr): a missing handler is a no-op. -/
def pcall {σ : Type} (h : Option (σ → UnwindOr σ)) (s : σ) : UnwindOr σ :=
  match h with
  | Option.some f => f s
  | Option.none => Except.ok s

/-- LocalScopeGuard specialised to possibly panicking handlers. -/
structure PGuard (σ : Type) where
  handler : Option (σ → UnwindOr σ)

/-- ScopeGuardPriv::call (src/src/lib.rs lines 94-97) for possibly
panicking handlers: mem::replace empties the slot before the old handler
runs, so the guard left behind is empty even when the call panics. -/
def pguardCall {σ : Type} (g : PGuard σ) (s : σ) : PGuard σ × UnwindOr σ :=
  ({ handler := Option.none }, pcall g.handler s)

/-- End-of-scope phase of scope (src/src/lib.rs lines 195-204) for a pair
of guards, with handlers that may panic.  guards.call_all() calls the
elements in order (src/src/private.rs lines 36-61); if a call panics, the
rest of call_all is skipped and the unwind leaves the scope function,
dropping the pair; the Drop impl of each element runs its call during
the unwind, and a second panic raised while unwinding aborts the
process, modelled as ending with the world thrown at that point.  On the
normal path the pair is likewise dropped when scope returns. -/
def pairEndPhase {σ : Type} (a b : PGuard σ) (s : σ) : UnwindOr σ :=
  let ca := pguardCall a s
  match ca.2 with
  | Except.error s1 =>
    match (pguardCall ca.1 s1).2 with
    | Except.error s2 => Except.error s2
    | Except.ok s2 =>
      match (pguardCall b s2).2 with
      | Except.error s3 => Except.error s3
      | Except.ok s3 => Except.error s3
  | Except.ok s1 =>
    let cb := pguardCall b s1
    match cb.2 with
    | Except.error s2 =>
      match (pguardCall ca.1 s2).2 with
      | Except.error s3 => Except.error s3
      | Except.ok s3 =>
        match (pguardCall cb.1 s3).2 with
        | Except.error s4 => Except.error s4
        | Except.ok s4 => Except.error s4
    | Except.ok s2 =>
      match (pguardCall ca.1 s2).2 with
      | Except.error s3 => Except.error s3
      | Except.ok s3 =>
        match (pguardCall cb.1 s3).2 with
        | Except.error s4 => Except.error s4
        | Except.ok s4 => Except.ok s4

/-- The handler type used by the DMA example (src/examples/example.rs):
Option of fn() closures printing to the console, the console being a
list of printed lines. -/
abbrev DmaHandler : Type :=
  Option (List String → List String)

/-- Effect of the stop-DMA closure in the example: println of the text
stop DMA. -/
def stopDmaMsg : List String → List String :=
  fun s => s ++ ["stop DMA"]

/-- Dma state Off (src/examples/example.rs line 9). -/
structure DmaOff where

/-- Dma state Running (src/examples/example.rs lines 11-17): holds the
borrowed data and the guard. -/
structure DmaRunning (G : Type) where
  data : List Nat
  guard : G

/-- Dma::start (src/examples/example.rs lines 19-30): writes the stop-DMA
handler through the guard handle and moves to the Running state.  The
write through handler_mut is a write into the slot when one exists and a
silent discard for the slotless StaticScopeGuard, i.e. set_handler. -/
def dmaStart {G : Type} [ScopeGuardCls G DmaHandler] (data : List Nat) (g : G) :
    DmaRunning G :=
  { data := data, guard := set_handler g (Option.some stopDmaMsg) }

/-- Dma::stop (src/examples/example.rs lines 32-43): the comment in the
source says Clear guard, but the code writes Some(stop-DMA) into the
slot again, a replacement handler rather than a cleared slot. -/
def dmaStop {G : Type} [ScopeGuardCls G DmaHandler] (d : DmaRunning G) :
    DmaOff × List Nat × G :=
  ({}, d.data, set_handler d.guard (Option.some stopDmaMsg))

/-- Side effect of a distinguishable handler: appends its id k to a log. -/
def logFire (k : Nat) : List Nat → List Nat :=
  fun s => s ++ [k]

/-- The Option FnOnce handler that logs k when armed and is the empty
handler otherwise. -/
def idHandler (o : Option Nat) : Option (List Nat → List Nat) :=
  o.map logFire

/-- C1: for a scope(body) run over one guard, whether the body completes
normally or unwinds after any number of steps, the total effect observed
once control has left the scope boundary is the effects of the body
followed by exactly one invocation of the handler the guard holds at the
exit point: the sweep (or the unwind-time drop) runs it once, and the
drop of the already-emptied guard at the end of scope adds nothing, so
the handler runs exactly once, never zero times and never twice. -/
theorem C1_single_invocation {σ : Type} (ops : List (BodyStep σ (Option (σ → σ))))
    (oc : ScopeOutcome) (s : σ) :
    scopeExec ops oc s =
      ScopeEndHandler.call (bodyExit ops oc s).1.handler (bodyExit ops oc s).2 := by
  cases oc <;> rfl

/-- C2: a scope call over a pair of guards starts from a fresh collection
of idle guards, finalizes in construction order (first guard A, then B)
regardless of the order in which the body assigned the handlers, and
returns the body result; on the concrete log scenario the result is the
log A then B even when B was assigned first. -/
theorem C2_construction_order {σ O : Type} (fA fB : σ → σ) (out : O) (s : σ) :
    (@LocalScopeGuards.new σ
        (LocalScopeGuard (Option (σ → σ)) × LocalScopeGuard (Option (σ → σ))) _) =
      ({ handler := Option.none }, { handler := Option.none }) ∧
    scope (fun g : LocalScopeGuard (Option (σ → σ)) × LocalScopeGuard (Option (σ → σ)) =>
        let a1 := set_handler g.1 (Option.some fA)
        let b1 := set_handler g.2 (Option.some fB)
        ((a1, b1), out)) s = (out, fB (fA s)) ∧
    scope (fun g : LocalScopeGuard (Option (σ → σ)) × LocalScopeGuard (Option (σ → σ)) =>
        let b1 := set_handler g.2 (Option.some fB)
        let a1 := set_handler g.1 (Option.some fA)
        ((a1, b1), out)) s = (out, fB (fA s)) ∧
    scope (fun g : LocalScopeGuard (Option (List String → List String)) ×
          LocalScopeGuard (Option (List String → List String)) =>
        let b1 := set_handler g.2 (Option.some (fun l => l ++ ["B"]))
        let a1 := set_handler g.1 (Option.some (fun l => l ++ ["A"]))
        ((a1, b1), ())) ([] : List String) = ((), ["A", "B"]) :=
  ⟨rfl, rfl, rfl, rfl⟩

/-- C3: ScopeGuardPriv::call on a LocalScopeGuard invokes the currently
held handler and leaves the slot equal to the no-op handler; given the
handler contract that the no-op handler does nothing, a second call
after the first (with no fresh assignment in between, so the slot is
still empty whatever else happened to the world) is a no-op, and calling
a guard that never received a handler is a no-op and not an error. -/
theorem C3_finalize_idempotent {σ H : Type} [i : ScopeEndHandler σ H]
    (hnone : ∀ s : σ, i.call i.none s = s) :
    (∀ (g : LocalScopeGuard H) (s : σ),
        ScopeGuardPriv.call g s = ({ handler := i.none }, i.call g.handler s)) ∧
    (∀ (g : LocalScopeGuard H) (s : σ),
        ScopeGuardPriv.call (ScopeGuardPriv.call g s).1 (ScopeGuardPriv.call g s).2 =
          ScopeGuardPriv.call g s) ∧
    (∀ s : σ,
        ScopeGuardPriv.call ({ handler := i.none } : LocalScopeGuard H) s =
          ({ handler := i.none }, s)) := by
  refine ⟨fun g s => rfl, fun g s => ?_, fun s => ?_⟩
  · show (({ handler := i.none } : LocalScopeGuard H), i.call i.none (i.call g.handler s)) =
      ScopeGuardPriv.call g s
    rw [hnone]
    rfl
  · show (({ handler := i.none } : LocalScopeGuard H), i.call i.none s) =
      ({ handler := i.none }, s)
    rw [hnone]

/-- C3 witness: finalizing a never-armed guard over the Option handler
instance at a concrete world is a no-op. -/
theorem C3_finalize_idempotent_w :
    ScopeGuardPriv.call
        ({ handler := Option.none } : LocalScopeGuard (Option (List Nat → List Nat)))
        ([3] : List Nat) =
      ({ handler := Option.none }, [3]) :=
  (C3_finalize_idempotent (fun _ => rfl)).2.2 [3]

/-- C4: set_handler on a LocalScopeGuard plainly replaces the slot with
the new handler; the previous handler does not occur in the result and
no world effect happens at assignment time, and finalizing afterwards
invokes only the newest handler (the old one is absent from the
outcome). -/
theorem C4_replace_discards {σ H : Type} [i : ScopeEndHandler σ H]
    (hOld hNew : H) (g : LocalScopeGuard H) (s : σ) :
    set_handler g hNew = { handler := hNew } ∧
    ScopeGuardPriv.call (set_handler ({ handler := hOld } : LocalScopeGuard H) hNew) s =
      ({ handler := i.none }, i.call hNew s) :=
  ⟨rfl, rfl⟩

/-- C5: for handler aggregates of every arity 0 through 6 (flat Rust
tuples, encoded as right-nested pairs with arity 1 the element itself),
none() is the aggregate of the element none() values, and call(self)
invokes every element exactly once in declaration order, with no
short-circuiting: on distinguishable logging handlers the log gains the
ids of the armed elements in declaration order, a later element firing
even when any earlier elements are empty. -/
theorem C5_aggregate_call {σ H1 H2 H3 H4 H5 H6 : Type}
    [i1 : ScopeEndHandler σ H1] [i2 : ScopeEndHandler σ H2] [i3 : ScopeEndHandler σ H3]
    [i4 : ScopeEndHandler σ H4] [i5 : ScopeEndHandler σ H5] [i6 : ScopeEndHandler σ H6]
    (a b c d e f : Option Nat) (s : List Nat) :
    ((instUnitHandler σ).none = ()) ∧
    ((ScopeEndHandler.none σ : H1 × H2) = (i1.none, i2.none)) ∧
    ((ScopeEndHandler.none σ : H1 × H2 × H3) = (i1.none, i2.none, i3.none)) ∧
    ((ScopeEndHandler.none σ : H1 × H2 × H3 × H4) = (i1.none, i2.none, i3.none, i4.none)) ∧
    ((ScopeEndHandler.none σ : H1 × H2 × H3 × H4 × H5) =
      (i1.none, i2.none, i3.none, i4.none, i5.none)) ∧
    ((ScopeEndHandler.none σ : H1 × H2 × H3 × H4 × H5 × H6) =
      (i1.none, i2.none, i3.none, i4.none, i5.none, i6.none)) ∧
    (ScopeEndHandler.call () s = s) ∧
    (ScopeEndHandler.call (idHandler a) s = s ++ a.toList) ∧
    (ScopeEndHandler.call (idHandler a, idHandler b) s = s ++ a.toList ++ b.toList) ∧
    (ScopeEndHandler.call (idHandler a, idHandler b, idHandler c) s =
      s ++ a.toList ++ b.toList ++ c.toList) ∧
    (ScopeEndHandler.call (idHandler a, idHandler b, idHandler c, idHandler d) s =
      s ++ a.toList ++ b.toList ++ c.toList ++ d.toList) ∧
    (ScopeEndHandler.call (idHandler a, idHandler b, idHandler c, idHandler d, idHandler e) s =
      s ++ a.toList ++ b.toList ++ c.toList ++ d.toList ++ e.toList) ∧
    (ScopeEndHandler.call
        (idHandler a, idHandler b, idHandler c, idHandler d, idHandler e, idHandler f) s =
      s ++ a.toList ++ b.toList ++ c.toList ++ d.toList ++ e.toList ++ f.toList) := by
  refine ⟨rfl, rfl, rfl, rfl, rfl, rfl, rfl, ?_, ?_, ?_, ?_, ?_, ?_⟩ <;>
    cases a <;> cases b <;> cases c <;> cases d <;> cases e <;> cases f <;>
      simp [idHandler, logFire, instOptionHandler, instProdHandler, ScopeEndHandler.call]

/-- C6: when the first guard handler of a pair panics during the
end-of-scope sweep, the second, not-yet-finalized guard is still
finalized (its handler runs on the world thrown by the first) before the
unwind propagates past the scope boundary. -/
theorem C6_sweep_survives_unwind {σ : Type} (fA fB : σ → UnwindOr σ) (s s1 : σ)
    (hA : fA s = Except.error s1) :
    pairEndPhase { handler := Option.some fA } { handler := Option.some fB } s =
      Except.error (UnwindOr.world (fB s1)) := by
  simp only [pairEndPhase, pguardCall, pcall, hA]
  cases hB : fB s1 <;> simp [UnwindOr.world, hB]

/-- C6 witness: with a first handler that logs 1 and panics and a second
handler that logs 2, the outcome past the boundary is an unwind whose
world contains both effects. -/
theorem C6_sweep_survives_unwind_w :
    pairEndPhase
        ({ handler := Option.some (fun s => Except.error (s ++ [1])) } : PGuard (List Nat))
        { handler := Option.some (fun s => Except.ok (s ++ [2])) } [] =
      Except.error [1, 2] :=
  C6_sweep_survives_unwind (fun s => Except.error (s ++ [1]))
    (fun s => Except.ok (s ++ [2])) [] [1] rfl

/-- C7: StaticScopeGuard exposes no handler slot (handler_mut is None),
set_handler returns the guard unchanged and neither retains nor invokes
the given handler, and its finalize step ScopeGuardPriv::call changes
nothing, for every handler and every world. -/
theorem C7_static_noop {σ H : Type} [ScopeEndHandler σ H]
    (g : StaticScopeGuard H) (h : H) (s : σ) :
    ScopeGuardCls.handler_mut (H := H) g = Option.none ∧
    set_handler g h = g ∧
    ScopeGuardPriv.call g s = (g, s) :=
  ⟨rfl, rfl, rfl⟩

/-- C8: evaluating the embedded example at a concrete input shows that
after Dma::stop the guard still holds a handler (the code reassigns the
stop-DMA closure instead of clearing the slot as its comment says), and
the end-of-scope finalize of that guard prints stop DMA rather than
invoking nothing. -/
theorem C8_stop_does_not_clear :
    (((dmaStop (dmaStart [1, 2, 3]
        ({ handler := Option.none } : LocalScopeGuard DmaHandler))).2.2).handler).isSome =
      true ∧
    (ScopeGuardPriv.call
        ((dmaStop (dmaStart [1, 2, 3]
          ({ handler := Option.none } : LocalScopeGuard DmaHandler))).2.2)
        ([] : List String)).2 = ["stop DMA"] :=
  ⟨rfl, rfl⟩

/-- C9: immediately after ScopeGuardPriv::call on a LocalScopeGuard the
slot equals the no-op handler, and consequently the normal-path run of a
scope, which drops the guard after the explicit sweep, produces exactly
the world of the sweep alone: the drop-time call invokes no handler. -/
theorem C9_call_empties_slot {σ H : Type} [i : ScopeEndHandler σ H]
    (g : LocalScopeGuard H) (s : σ)
    (ops : List (BodyStep σ (Option (σ → σ)))) (s0 : σ) :
    (ScopeGuardPriv.call g s).1.handler = i.none ∧
    scopeExec ops ScopeOutcome.normal s0 =
      (ScopeGuardPriv.call (bodyExit ops ScopeOutcome.normal s0).1
        (bodyExit ops ScopeOutcome.normal s0).2).2 :=
  ⟨rfl, rfl⟩

/-- C10: scope applies the finalize sweep to the collection value the
body returned, not to the collection it constructed: in general the run
of scope is call_all of the first component of the body result (followed
by the drop pass), and a body that swaps two same-typed guards gets the
sweep in the returned positions, the handler of the guard returned first
firing first. -/
theorem C10_sweep_returned_collection {σ O : Type} (fA fB : σ → σ) (out : O) (s : σ) :
    (∀ (G : Type) (i : LocalScopeGuards σ G) (body : G → G × O),
        @scope σ G O i body s =
          ((body i.new).2,
            (i.call_all (i.call_all (body i.new).1 s).1
              (i.call_all (body i.new).1 s).2).2)) ∧
    scope (fun g : LocalScopeGuard (Option (σ → σ)) × LocalScopeGuard (Option (σ → σ)) =>
        let a1 := set_handler g.1 (Option.some fA)
        let b1 := set_handler g.2 (Option.some fB)
        ((b1, a1), out)) s = (out, fA (fB s)) :=
  ⟨fun _ _ _ => rfl, rfl⟩

end StrongScopeGuard
